import Mathlib

/-!
Verification of the CSV-to-TypeScript spot generator (`scripts/parseCsv.py`).

The script reads a municipal CSV of tourist facilities, filters rows, builds
`Spot` records with a randomly assigned congestion level, and emits a
TypeScript module containing the record list plus a Haversine-based
`findNearbySpots` utility.  We embed the row-processing loop and the emitted
TypeScript functions below and prove the behavioural claims about them.

Modelling conventions:
* Python strings are Lean `String`s; `str.strip` is `pyStrip` (ASCII
  whitespace set; the claims never depend on exotic Unicode spaces).
* Python `float(...)` is `pyFloat : String → Option ℚ`, covering the
  sign/digits/decimal-point/exponent grammar; `ValueError` is `none`.
  The special forms `inf`, `nan` and digit underscores are outside the model.
* `random.randint(1, 5)` is an oracle stream `rand : ℕ → ℕ` consumed one
  value per emitted record; the uniformity of the stream is the contract of
  the Python standard library, modelled as the hypothesis `1 ≤ rand n ≤ 5`.
* The emitted TypeScript `Array.prototype.sort` with comparator
  `a.congestionLevel - b.congestionLevel` is a stable sort by congestion
  level; any stable sort yields the same list, so we model it with
  `List.insertionSort`, which is stable.
* TypeScript numbers are idealised as real numbers `ℝ` for the Haversine
  distance (trigonometry has no exact machine embedding).
-/

namespace SpotGen

/-! ### Python string primitives -/

/-- Whitespace characters removed by Python `str.strip()` (ASCII subset). -/
def isPySpace (c : Char) : Bool :=
  c = ' ' || c = '\t' || c = '\n' || c = '\r' || c = '\x0b' || c = '\x0c'

/-- Python `str.strip()`: remove leading and trailing whitespace. -/
def pyStrip (s : String) : String :=
  String.mk (((s.data.dropWhile isPySpace).reverse.dropWhile isPySpace).reverse)

/-- Decimal digit test. -/
def isPyDigit (c : Char) : Bool :=
  '0' ≤ c && c ≤ '9'

/-- Numeric value of a digit string (most significant first). -/
def digitsVal (cs : List Char) : ℕ :=
  cs.foldl (fun n c => 10 * n + (c.toNat - '0'.toNat)) 0

/-- Python slicing `s[:n]`: the first `n` characters (code points). -/
def pySlice (s : String) (n : ℕ) : String :=
  String.mk (s.data.take n)

/-- Substring containment test: does `needle` occur contiguously in `hay`?
This models the Python expression `needle in hay` on strings. -/
def containsSub (needle : List Char) : List Char → Bool
  | [] => needle.isEmpty
  | c :: t => needle.isPrefixOf (c :: t) || containsSub needle t

/-- Python `float(s)` restricted to finite decimal literals:
optional sign, digits with an optional decimal point, optional exponent.
Returns `none` where Python raises `ValueError`.  The value
`sign * mantissa * 10 ^ exponent / 10 ^ fractionLength` is returned as an
exact rational (built with `mkRat` over integer arithmetic); IEEE-754
rounding of the decimal value, and the special forms `inf`, `nan` and
digit underscores, are outside the model. -/
def pyFloat (s : String) : Option ℚ :=
  let cs0 := (pyStrip s).data
  let (sgn, cs1) : ℤ × List Char :=
    match cs0 with
    | '+' :: rest => (1, rest)
    | '-' :: rest => (-1, rest)
    | rest => (1, rest)
  let intPart := cs1.takeWhile isPyDigit
  let cs2 := cs1.dropWhile isPyDigit
  let (fracPart, cs3) : List Char × List Char :=
    match cs2 with
    | '.' :: rest => (rest.takeWhile isPyDigit, rest.dropWhile isPyDigit)
    | rest => ([], rest)
  if intPart.isEmpty && fracPart.isEmpty then
    none
  else
    let (expOk, expVal, cs4) : Bool × ℤ × List Char :=
      match cs3 with
      | 'e' :: rest | 'E' :: rest =>
        let (esgn, rest1) : ℤ × List Char :=
          match rest with
          | '+' :: r => (1, r)
          | '-' :: r => (-1, r)
          | r => (1, r)
        let expDigits := rest1.takeWhile isPyDigit
        let rest2 := rest1.dropWhile isPyDigit
        if expDigits.isEmpty then (false, 0, rest2)
        else (true, esgn * (digitsVal expDigits : ℤ), rest2)
      | rest => (true, 0, rest)
    if expOk && cs4.isEmpty then
      some (if 0 ≤ expVal then
          mkRat (sgn * (digitsVal (intPart ++ fracPart) : ℤ)
              * ((10 ^ expVal.toNat : ℕ) : ℤ))
            (10 ^ fracPart.length)
        else
          mkRat (sgn * (digitsVal (intPart ++ fracPart) : ℤ))
            (10 ^ (fracPart.length + (-expVal).toNat)))
    else
      none

/-! ### The data model -/

/-- One CSV row, restricted to the nine columns the script reads
(`名称`, `緯度`, `経度`, `説明`, `開始時間`, `終了時間`,
`利用可能日時特記事項`, `料金（基本）`, `料金（詳細）`); `row.get(key, '')`
yields `""` for an absent column, so each field is a plain string. -/
structure Row where
  name : String
  lat : String
  lon : String
  description : String
  startTime : String
  endTime : String
  timeNote : String
  priceBasic : String
  priceDetail : String
deriving Repr, DecidableEq

/-- One generated `Spot` record.  Optional keys of the Python dict are
`Option` fields; coordinates are the parsed rationals. -/
structure Spot where
  id : String
  name : String
  description : String
  congestionLevel : ℕ
  latitude : ℚ
  longitude : ℚ
  openingHours : Option String
  price : Option String
deriving Repr, DecidableEq

/-- The exclusion keyword list (`exclude_keywords` in the script). -/
def exclude_keywords : List String :=
  ["センター", "駐車場", "駐輪場", "ホテル", "宿", "サービス",
   "イン", "休館中", "交流館", "インフォメーション", "旅館",
   "ホール", "プール", "タクシー"]

/-- Body of the `for row in reader` loop for one row: either the built spot
dict, or `none` when the row is dropped (by the keyword filter, the
empty-field filter, a `float` `ValueError`, or the zero-coordinate filter).
`congestion_level` is passed in because the random draw is only consumed
when control reaches the `random.randint` call, which happens exactly when
the row survives every filter. -/
def buildSpot (spot_id : ℕ) (congestion_level : ℕ) (row : Row) : Option Spot :=
  let name := pyStrip row.name
  let lat_str := pyStrip row.lat
  let lon_str := pyStrip row.lon
  let description := pySlice (pyStrip row.description) 150
  if exclude_keywords.any (fun keyword => containsSub keyword.data name.data) then
    none
  else
    let start_time := pyStrip row.startTime
    let end_time := pyStrip row.endTime
    let time_note := pyStrip row.timeNote
    let price_basic := pyStrip row.priceBasic
    let price_detail := pyStrip row.priceDetail
    if name = "" ∨ lat_str = "" ∨ lon_str = "" then
      none
    else
      match pyFloat lat_str, pyFloat lon_str with
      | some lat, some lon =>
        if lat = 0 ∨ lon = 0 then
          none
        else
          let opening_hours : Option String :=
            if start_time ≠ "" ∧ end_time ≠ "" then
              some (start_time ++ "～" ++ end_time)
            else if time_note ≠ "" then
              some time_note
            else
              none
          some {
            id := "spot-" ++ toString spot_id
            name := name
            description := if description ≠ "" then description
                           else name ++ "の観光スポット"
            congestionLevel := congestion_level
            latitude := lat
            longitude := lon
            openingHours := opening_hours
            price := if price_detail ≠ "" then some price_detail
                     else if price_basic ≠ "" then some price_basic
                     else none }
      | _, _ => none

/-- The row loop: `spot_id` starts at 1 and is incremented once per emitted
record; `draw` indexes the oracle stream of `random.randint(1, 5)` results,
advanced once per emitted record (the call happens after every filter). -/
def parseRows (rand : ℕ → ℕ) : List Row → ℕ → ℕ → List Spot
  | [], _, _ => []
  | row :: rest, spot_id, draw =>
    match buildSpot spot_id (rand draw) row with
    | some spot => spot :: parseRows rand rest (spot_id + 1) (draw + 1)
    | none => parseRows rand rest spot_id draw

/-- The whole generation pass: the spot list the script serialises into
`KYOTO_SPOTS`. -/
def runScript (rand : ℕ → ℕ) (rows : List Row) : List Spot :=
  parseRows rand rows 1 0

/-! ### The emitted TypeScript utilities -/

/-- The `Coordinates` argument of `findNearbySpots`. -/
structure Coordinates where
  latitude : ℝ
  longitude : ℝ

/-- `deg2rad` from the emitted TypeScript. -/
noncomputable def deg2rad (deg : ℝ) : ℝ :=
  deg * (Real.pi / 180)

open Classical in
/-- JavaScript `Math.atan2(y, x)` on finite inputs. -/
noncomputable def atan2 (y x : ℝ) : ℝ :=
  if 0 < x then Real.arctan (y / x)
  else if x < 0 ∧ 0 ≤ y then Real.arctan (y / x) + Real.pi
  else if x < 0 ∧ y < 0 then Real.arctan (y / x) - Real.pi
  else if x = 0 ∧ 0 < y then Real.pi / 2
  else if x = 0 ∧ y < 0 then -(Real.pi / 2)
  else 0

/-- `getDistanceFromLatLonInKm` from the emitted TypeScript: the Haversine
great-circle distance with earth radius `R = 6371` km. -/
noncomputable def getDistanceFromLatLonInKm (lat1 lon1 lat2 lon2 : ℝ) : ℝ :=
  let R : ℝ := 6371
  let dLat := deg2rad (lat2 - lat1)
  let dLon := deg2rad (lon2 - lon1)
  let a :=
    Real.sin (dLat / 2) * Real.sin (dLat / 2) +
    Real.cos (deg2rad lat1) * Real.cos (deg2rad lat2) *
    Real.sin (dLon / 2) * Real.sin (dLon / 2)
  let c := 2 * atan2 (Real.sqrt a) (Real.sqrt (1 - a))
  R * c

/-- Distance from the current location to a spot, as computed inside the
`filter` callback of `findNearbySpots`. -/
noncomputable def spotDistance (currentLoc : Coordinates) (spot : Spot) : ℝ :=
  getDistanceFromLatLonInKm currentLoc.latitude currentLoc.longitude
    (spot.latitude : ℝ) (spot.longitude : ℝ)

/-- The sort order of the emitted comparator
`(a, b) => a.congestionLevel - b.congestionLevel`. -/
def congLe (a b : Spot) : Prop :=
  a.congestionLevel ≤ b.congestionLevel

instance : DecidableRel congLe :=
  fun a b => Nat.decLe a.congestionLevel b.congestionLevel

instance : IsTotal Spot congLe :=
  ⟨fun a b => Nat.le_total a.congestionLevel b.congestionLevel⟩

instance : IsTrans Spot congLe :=
  ⟨fun _ _ _ hab hbc => Nat.le_trans hab hbc⟩

open Classical in
/-- The `filter` callback of `findNearbySpots`: is the spot within
`radiusKm` of the current location? -/
noncomputable def withinRadius (currentLoc : Coordinates) (radiusKm : ℝ)
    (spot : Spot) : Bool :=
  decide (spotDistance currentLoc spot ≤ radiusKm)

/-- `findNearbySpots` from the emitted TypeScript, with the radius argument
explicit.  `spots` stands for the generated `KYOTO_SPOTS` constant.
JavaScript `Array.prototype.sort` is a stable sort, modelled by
`List.insertionSort` (which is stable for `congLe`). -/
noncomputable def findNearbySpotsWith (spots : List Spot) (currentLoc : Coordinates)
    (radiusKm : ℝ) : List Spot :=
  let filteredSpots := spots.filter (withinRadius currentLoc radiusKm)
  filteredSpots.insertionSort congLe

/-- A call of `findNearbySpots`: `none` models calling it without the radius
argument, in which case the declared default `radiusKm: number = 5`
applies. -/
noncomputable def findNearbySpots (spots : List Spot) (currentLoc : Coordinates)
    (radiusArg : Option ℝ) : List Spot :=
  findNearbySpotsWith spots currentLoc (radiusArg.getD 5)

/-! ### Helper lemmas about the row loop -/

/-- A row whose stripped name contains an exclusion keyword is dropped. -/
lemma buildSpot_none_of_keyword {row : Row} {i c : ℕ}
    (h : exclude_keywords.any
      (fun keyword => containsSub keyword.data (pyStrip row.name).data) = true) :
    buildSpot i c row = none := by
  simp only [buildSpot, h, if_true]

/-- A row with an empty stripped name, latitude or longitude is dropped. -/
lemma buildSpot_none_of_empty {row : Row} {i c : ℕ}
    (h : pyStrip row.name = "" ∨ pyStrip row.lat = "" ∨ pyStrip row.lon = "") :
    buildSpot i c row = none := by
  simp only [buildSpot]
  split <;> rfl

/-- A row on which `float(...)` raises `ValueError` for the latitude or the
longitude is dropped. -/
lemma buildSpot_none_of_parse_fail {row : Row} {i c : ℕ}
    (h : pyFloat (pyStrip row.lat) = none ∨ pyFloat (pyStrip row.lon) = none) :
    buildSpot i c row = none := by
  simp only [buildSpot]
  split
  · rfl
  · split
    · rfl
    · split
      · next lat lon hlat hlon =>
          rcases h with h | h
          · rw [h] at hlat; exact absurd hlat (by simp)
          · rw [h] at hlon; exact absurd hlon (by simp)
      · rfl

/-- A row whose parsed latitude or longitude equals `0` is dropped. -/
lemma buildSpot_none_of_zero {row : Row} {i c : ℕ}
    (h : pyFloat (pyStrip row.lat) = some 0 ∨ pyFloat (pyStrip row.lon) = some 0) :
    buildSpot i c row = none := by
  simp only [buildSpot]
  split
  · rfl
  · split
    · rfl
    · split
      · next lat lon hlat hlon =>
          rcases h with h | h
          · rw [h] at hlat
            rw [if_pos (Or.inl (Option.some.inj hlat).symm)]
          · rw [h] at hlon
            rw [if_pos (Or.inr (Option.some.inj hlon).symm)]
      · rfl

/-- When the loop body drops a row, the loop continues with the remaining
rows, the identifier counter and the random stream unchanged. -/
lemma parseRows_skip {rand : ℕ → ℕ} {row : Row} {rest : List Row}
    {spot_id draw : ℕ} (h : buildSpot spot_id (rand draw) row = none) :
    parseRows rand (row :: rest) spot_id draw = parseRows rand rest spot_id draw := by
  simp only [parseRows, h]

/-- Inversion: the exact shape of every emitted record. -/
lemma buildSpot_some {i c : ℕ} {row : Row} {s : Spot}
    (h : buildSpot i c row = some s) :
    s.id = "spot-" ++ toString i ∧
    s.name = pyStrip row.name ∧
    pyStrip row.name ≠ "" ∧
    s.congestionLevel = c ∧
    pyFloat (pyStrip row.lat) = some s.latitude ∧
    pyFloat (pyStrip row.lon) = some s.longitude ∧
    s.latitude ≠ 0 ∧ s.longitude ≠ 0 ∧
    s.description = (if pySlice (pyStrip row.description) 150 ≠ ""
      then pySlice (pyStrip row.description) 150
      else pyStrip row.name ++ "の観光スポット") ∧
    s.openingHours = (if pyStrip row.startTime ≠ "" ∧ pyStrip row.endTime ≠ ""
      then some (pyStrip row.startTime ++ "～" ++ pyStrip row.endTime)
      else if pyStrip row.timeNote ≠ "" then some (pyStrip row.timeNote)
      else none) ∧
    s.price = (if pyStrip row.priceDetail ≠ "" then some (pyStrip row.priceDetail)
      else if pyStrip row.priceBasic ≠ "" then some (pyStrip row.priceBasic)
      else none) := by
  simp only [buildSpot] at h
  split at h
  · exact absurd h (by simp)
  · split at h
    · exact absurd h (by simp)
    · next hne =>
        push_neg at hne
        split at h
        · next lat lon hlat hlon =>
            split at h
            · exact absurd h (by simp)
            · next hz =>
                push_neg at hz
                obtain rfl := (Option.some.inj h).symm
                exact ⟨rfl, rfl, hne.1, rfl, hlat, hlon, hz.1, hz.2, rfl, rfl, rfl⟩
        · exact absurd h (by simp)

/-- Truncation to 150 characters yields the empty string exactly for the
empty string. -/
lemma pySlice_150_eq_empty_iff (s : String) : pySlice s 150 = "" ↔ s = "" := by
  obtain ⟨l⟩ := s
  constructor
  · intro h
    have hdata : l.take 150 = [] := congrArg String.data h
    have hlen : min 150 l.length = 0 := by
      have := congrArg List.length hdata
      simpa [List.length_take] using this
    have hl : l = [] := List.length_eq_zero.mp (by omega)
    subst hl
    rfl
  · intro h
    rw [h]
    rfl

/-- Every record in the loop output has a non-empty name and non-zero
coordinates. -/
lemma mem_parseRows_invariant (rand : ℕ → ℕ) :
    ∀ (rows : List Row) (i d : ℕ), ∀ s ∈ parseRows rand rows i d,
      s.name ≠ "" ∧ s.latitude ≠ 0 ∧ s.longitude ≠ 0
  | [], _, _ => by simp [parseRows]
  | row :: rest, i, d => by
    intro s hs
    cases hb : buildSpot i (rand d) row with
    | none =>
      simp only [parseRows, hb] at hs
      exact mem_parseRows_invariant rand rest i d s hs
    | some t =>
      simp only [parseRows, hb, List.mem_cons] at hs
      rcases hs with rfl | hs
      · obtain ⟨-, hname, hne, -, -, -, hlat, hlon, -⟩ := buildSpot_some hb
        exact ⟨hname ▸ hne, hlat, hlon⟩
      · exact mem_parseRows_invariant rand rest (i + 1) (d + 1) s hs

/-- Every record in the loop output draws its congestion level from the
random stream. -/
lemma mem_parseRows_congestion (rand : ℕ → ℕ) :
    ∀ (rows : List Row) (i d : ℕ), ∀ s ∈ parseRows rand rows i d,
      ∃ n, s.congestionLevel = rand n
  | [], _, _ => by simp [parseRows]
  | row :: rest, i, d => by
    intro s hs
    cases hb : buildSpot i (rand d) row with
    | none =>
      simp only [parseRows, hb] at hs
      exact mem_parseRows_congestion rand rest i d s hs
    | some t =>
      simp only [parseRows, hb, List.mem_cons] at hs
      rcases hs with rfl | hs
      · obtain ⟨-, -, -, hc, -⟩ := buildSpot_some hb
        exact ⟨d, hc⟩
      · exact mem_parseRows_congestion rand rest (i + 1) (d + 1) s hs

/-- The identifiers of the loop output are consecutive starting at the
initial counter value. -/
lemma parseRows_map_id (rand : ℕ → ℕ) :
    ∀ (rows : List Row) (i d : ℕ),
      (parseRows rand rows i d).map Spot.id =
        (List.range (parseRows rand rows i d).length).map
          (fun k => "spot-" ++ toString (i + k))
  | [], _, _ => rfl
  | row :: rest, i, d => by
    cases hb : buildSpot i (rand d) row with
    | none =>
      simp only [parseRows, hb]
      exact parseRows_map_id rand rest i d
    | some t =>
      have hid := (buildSpot_some hb).1
      simp only [parseRows, hb, List.map_cons, List.length_cons,
        List.range_succ_eq_map, List.map_map]
      refine congrArg₂ List.cons (by simpa using hid) ?_
      rw [parseRows_map_id rand rest (i + 1) (d + 1)]
      refine List.map_congr_left fun k _ => ?_
      have : i + 1 + k = i + (k + 1) := by omega
      simp [Function.comp, this]

/-- The congestion levels of the loop output are the consecutive values of
the random stream starting at the initial draw index. -/
lemma parseRows_map_congestion (rand : ℕ → ℕ) :
    ∀ (rows : List Row) (i d : ℕ),
      (parseRows rand rows i d).map Spot.congestionLevel =
        (List.range (parseRows rand rows i d).length).map (fun k => rand (d + k))
  | [], _, _ => rfl
  | row :: rest, i, d => by
    cases hb : buildSpot i (rand d) row with
    | none =>
      simp only [parseRows, hb]
      exact parseRows_map_congestion rand rest i d
    | some t =>
      have hc := (buildSpot_some hb).2.2.2.1
      simp only [parseRows, hb, List.map_cons, List.length_cons,
        List.range_succ_eq_map, List.map_map]
      refine congrArg₂ List.cons (by simpa using hc) ?_
      rw [parseRows_map_congestion rand rest (i + 1) (d + 1)]
      refine List.map_congr_left fun k _ => ?_
      have : d + 1 + k = d + (k + 1) := by omega
      simp [Function.comp, this]

/-! ### Stability of the congestion-level sort -/

/-- Inserting a spot commutes with filtering on a congestion class:
`orderedInsert` places the new spot in front of the spots of its own class
and does not disturb the other classes. -/
lemma filter_orderedInsert_congLe (cl : ℕ) (x : Spot) :
    ∀ l : List Spot,
      (l.orderedInsert congLe x).filter (fun s => s.congestionLevel == cl) =
        if x.congestionLevel = cl then
          x :: l.filter (fun s => s.congestionLevel == cl)
        else
          l.filter (fun s => s.congestionLevel == cl)
  | [] => by
    by_cases hx : x.congestionLevel = cl <;>
      simp [List.orderedInsert, List.filter_cons, hx]
  | b :: l => by
    have ih := filter_orderedInsert_congLe cl x l
    by_cases hxb : congLe x b
    · rw [List.orderedInsert, if_pos hxb]
      by_cases hx : x.congestionLevel = cl <;>
        by_cases hb : b.congestionLevel = cl <;>
          simp [List.filter_cons, hx, hb]
    · rw [List.orderedInsert, if_neg hxb]
      have hxb' : ¬ x.congestionLevel ≤ b.congestionLevel := hxb
      by_cases hx : x.congestionLevel = cl
      · have hb : b.congestionLevel ≠ cl := by omega
        simp [List.filter_cons, hb, hx, ih]
      · simp [List.filter_cons, hx, ih]

/-- Insertion sort by congestion level keeps each congestion class in its
original order: it is a stable sort for the comparator of the emitted
JavaScript. -/
lemma filter_insertionSort_congLe (cl : ℕ) :
    ∀ l : List Spot,
      (l.insertionSort congLe).filter (fun s => s.congestionLevel == cl) =
        l.filter (fun s => s.congestionLevel == cl)
  | [] => rfl
  | b :: l => by
    rw [List.insertionSort, filter_orderedInsert_congLe]
    by_cases hb : b.congestionLevel = cl <;>
      simp [List.filter_cons, hb, filter_insertionSort_congLe cl l]

/-! ### The claims -/

/-- C1: for every current location, radius and generated spot collection,
`findNearbySpots` returns exactly the spots whose Haversine great-circle
distance (earth radius 6371 km) from the current location is at most the
radius, sorted ascending by congestion level, with spots of equal
congestion level kept in their original relative order (the sort is
stable, so each congestion class of the result equals the corresponding
class of the filtered input, in order). -/
theorem findNearbySpots_within_radius_sorted_stable
    (spots : List Spot) (loc : Coordinates) (radiusKm : ℝ) :
    List.Sorted congLe (findNearbySpotsWith spots loc radiusKm) ∧
    (∀ s : Spot, s ∈ findNearbySpotsWith spots loc radiusKm ↔
      s ∈ spots ∧ spotDistance loc s ≤ radiusKm) ∧
    List.Perm (findNearbySpotsWith spots loc radiusKm)
      (spots.filter (withinRadius loc radiusKm)) ∧
    (∀ cl : ℕ,
      (findNearbySpotsWith spots loc radiusKm).filter
          (fun s => s.congestionLevel == cl) =
        (spots.filter (withinRadius loc radiusKm)).filter
          (fun s => s.congestionLevel == cl)) := by
  refine ⟨?_, ?_, ?_, ?_⟩
  · exact List.sorted_insertionSort congLe _
  · intro s
    have hperm := List.perm_insertionSort congLe (spots.filter (withinRadius loc radiusKm))
    rw [show findNearbySpotsWith spots loc radiusKm =
          (spots.filter (withinRadius loc radiusKm)).insertionSort congLe from rfl,
        hperm.mem_iff, List.mem_filter]
    simp [withinRadius]
  · exact List.perm_insertionSort congLe _
  · intro cl
    exact filter_insertionSort_congLe cl _

/-- C2: a row whose stripped name contains any keyword of the 14-entry
exclusion list as a substring produces no record, and the identifier
counter (and the random stream) is not advanced. -/
theorem excluded_keyword_row_dropped (rand : ℕ → ℕ) (row : Row) (rest : List Row)
    (spot_id draw : ℕ)
    (h : ∃ keyword ∈ exclude_keywords,
      containsSub keyword.data (pyStrip row.name).data = true) :
    parseRows rand (row :: rest) spot_id draw = parseRows rand rest spot_id draw :=
  parseRows_skip (buildSpot_none_of_keyword (List.any_eq_true.mpr (by simpa using h)))

/-- C2 witness: a concrete row named 京都ホテル (containing the excluded
keyword ホテル) is dropped. -/
theorem excluded_keyword_row_dropped_witness :
    parseRows (fun _ => 1)
      [{ name := "京都ホテル", lat := "35", lon := "135", description := "",
         startTime := "", endTime := "", timeNote := "", priceBasic := "",
         priceDetail := "" }] 1 0 =
      parseRows (fun _ => 1) [] 1 0 :=
  excluded_keyword_row_dropped (fun _ => 1)
    { name := "京都ホテル", lat := "35", lon := "135", description := "",
      startTime := "", endTime := "", timeNote := "", priceBasic := "",
      priceDetail := "" } [] 1 0 (by decide)

/-- C3: a row whose stripped name, latitude string or longitude string is
empty, or whose parsed latitude or longitude equals 0, is dropped, and
consequently every generated record has a non-empty name and non-zero
coordinates. -/
theorem invalid_coordinate_rows_dropped (rand : ℕ → ℕ) :
    (∀ (row : Row) (rest : List Row) (spot_id draw : ℕ),
      pyStrip row.name = "" ∨ pyStrip row.lat = "" ∨ pyStrip row.lon = "" ∨
        pyFloat (pyStrip row.lat) = some 0 ∨ pyFloat (pyStrip row.lon) = some 0 →
      parseRows rand (row :: rest) spot_id draw = parseRows rand rest spot_id draw) ∧
    (∀ rows : List Row, ∀ s ∈ runScript rand rows,
      s.name ≠ "" ∧ s.latitude ≠ 0 ∧ s.longitude ≠ 0) := by
  constructor
  · intro row rest spot_id draw h
    refine parseRows_skip ?_
    rcases h with h | h | h | h | h
    · exact buildSpot_none_of_empty (Or.inl h)
    · exact buildSpot_none_of_empty (Or.inr (Or.inl h))
    · exact buildSpot_none_of_empty (Or.inr (Or.inr h))
    · exact buildSpot_none_of_zero (Or.inl h)
    · exact buildSpot_none_of_zero (Or.inr h)
  · intro rows s hs
    exact mem_parseRows_invariant rand rows 1 0 s hs

/-- C3 witness: a concrete row with latitude string `"0"` is dropped. -/
theorem invalid_coordinate_rows_dropped_witness :
    parseRows (fun _ => 2)
      [{ name := "八坂神社", lat := "0", lon := "135", description := "",
         startTime := "", endTime := "", timeNote := "", priceBasic := "",
         priceDetail := "" }] 1 0 =
      parseRows (fun _ => 2) [] 1 0 :=
  (invalid_coordinate_rows_dropped (fun _ => 2)).1
    { name := "八坂神社", lat := "0", lon := "135", description := "",
      startTime := "", endTime := "", timeNote := "", priceBasic := "",
      priceDetail := "" } [] 1 0 (by decide)

/-- C4: the description of every emitted record is the first 150 characters
of the stripped 説明 field when that text is non-empty, and otherwise the
fallback string built from the name. -/
theorem description_truncated_or_fallback (i c : ℕ) (row : Row) (s : Spot)
    (h : buildSpot i c row = some s) :
    s.description = if pyStrip row.description ≠ ""
      then pySlice (pyStrip row.description) 150
      else pyStrip row.name ++ "の観光スポット" := by
  obtain ⟨-, -, -, -, -, -, -, -, hdesc, -, -⟩ := buildSpot_some h
  rw [hdesc]
  by_cases hd : pyStrip row.description = "" <;>
    simp [hd, pySlice_150_eq_empty_iff]

/-- C4 witness: a concrete emitted record whose description comes from the
説明 field (stripped). -/
theorem description_truncated_or_fallback_witness :
    buildSpot 2 4
      { name := "金閣寺", lat := "35", lon := "135", description := " 金箔の寺 ",
        startTime := "", endTime := "", timeNote := "", priceBasic := "",
        priceDetail := "" } = some
      { id := "spot-2", name := "金閣寺", description := "金箔の寺",
        congestionLevel := 4, latitude := 35, longitude := 135,
        openingHours := none, price := none } ∧
    ({ id := "spot-2", name := "金閣寺", description := "金箔の寺",
       congestionLevel := 4, latitude := 35, longitude := 135,
       openingHours := none, price := none } : Spot).description =
      if pyStrip (Row.description
          { name := "金閣寺", lat := "35", lon := "135", description := " 金箔の寺 ",
            startTime := "", endTime := "", timeNote := "", priceBasic := "",
            priceDetail := "" }) ≠ ""
      then pySlice (pyStrip (Row.description
          { name := "金閣寺", lat := "35", lon := "135", description := " 金箔の寺 ",
            startTime := "", endTime := "", timeNote := "", priceBasic := "",
            priceDetail := "" })) 150
      else pyStrip (Row.name
          { name := "金閣寺", lat := "35", lon := "135", description := " 金箔の寺 ",
            startTime := "", endTime := "", timeNote := "", priceBasic := "",
            priceDetail := "" }) ++ "の観光スポット" :=
  ⟨by decide,
    description_truncated_or_fallback 2 4
      { name := "金閣寺", lat := "35", lon := "135", description := " 金箔の寺 ",
        startTime := "", endTime := "", timeNote := "", priceBasic := "",
        priceDetail := "" }
      { id := "spot-2", name := "金閣寺", description := "金箔の寺",
        congestionLevel := 4, latitude := 35, longitude := 135,
        openingHours := none, price := none } (by decide)⟩

/-- C5: the opening-hours text of every emitted record prefers start/end
time over the free-text note: `start～end` when both stripped times are
non-empty, otherwise the stripped note when non-empty, otherwise the
`openingHours` key is absent. -/
theorem openingHours_start_end_preferred (i c : ℕ) (row : Row) (s : Spot)
    (h : buildSpot i c row = some s) :
    s.openingHours = if pyStrip row.startTime ≠ "" ∧ pyStrip row.endTime ≠ ""
      then some (pyStrip row.startTime ++ "～" ++ pyStrip row.endTime)
      else if pyStrip row.timeNote ≠ "" then some (pyStrip row.timeNote)
      else none := by
  obtain ⟨-, -, -, -, -, -, -, -, -, hoh, -⟩ := buildSpot_some h
  exact hoh

/-- C5 witness: a concrete row where both times and the note are set; the
record uses `start～end`, not the note. -/
theorem openingHours_start_end_preferred_witness :
    buildSpot 1 2
      { name := "銀閣寺", lat := "35", lon := "135", description := "",
        startTime := "9:00", endTime := "17:00", timeNote := "年中無休",
        priceBasic := "", priceDetail := "" } = some
      { id := "spot-1", name := "銀閣寺", description := "銀閣寺の観光スポット",
        congestionLevel := 2, latitude := 35, longitude := 135,
        openingHours := some "9:00～17:00", price := none } ∧
    ({ id := "spot-1", name := "銀閣寺", description := "銀閣寺の観光スポット",
       congestionLevel := 2, latitude := 35, longitude := 135,
       openingHours := some "9:00～17:00", price := none } : Spot).openingHours =
      if pyStrip "9:00" ≠ "" ∧ pyStrip "17:00" ≠ ""
      then some (pyStrip "9:00" ++ "～" ++ pyStrip "17:00")
      else if pyStrip "年中無休" ≠ "" then some (pyStrip "年中無休")
      else none :=
  ⟨by decide,
    openingHours_start_end_preferred 1 2
      { name := "銀閣寺", lat := "35", lon := "135", description := "",
        startTime := "9:00", endTime := "17:00", timeNote := "年中無休",
        priceBasic := "", priceDetail := "" }
      { id := "spot-1", name := "銀閣寺", description := "銀閣寺の観光スポット",
        congestionLevel := 2, latitude := 35, longitude := 135,
        openingHours := some "9:00～17:00", price := none } (by decide)⟩

/-- C6: the price text of every emitted record is the stripped detailed
price when non-empty, otherwise the stripped basic price when non-empty,
otherwise the `price` key is absent. -/
theorem price_detail_preferred (i c : ℕ) (row : Row) (s : Spot)
    (h : buildSpot i c row = some s) :
    s.price = if pyStrip row.priceDetail ≠ "" then some (pyStrip row.priceDetail)
      else if pyStrip row.priceBasic ≠ "" then some (pyStrip row.priceBasic)
      else none := by
  obtain ⟨-, -, -, -, -, -, -, -, -, -, hp⟩ := buildSpot_some h
  exact hp

/-- C6 witness: a concrete row where both price fields are set; the record
uses the detailed price. -/
theorem price_detail_preferred_witness :
    buildSpot 1 5
      { name := "二条城", lat := "35", lon := "135", description := "",
        startTime := "", endTime := "", timeNote := "",
        priceBasic := "600円", priceDetail := "大人600円、子供300円" } = some
      { id := "spot-1", name := "二条城", description := "二条城の観光スポット",
        congestionLevel := 5, latitude := 35, longitude := 135,
        openingHours := none, price := some "大人600円、子供300円" } ∧
    ({ id := "spot-1", name := "二条城", description := "二条城の観光スポット",
       congestionLevel := 5, latitude := 35, longitude := 135,
       openingHours := none, price := some "大人600円、子供300円" } : Spot).price =
      if pyStrip "大人600円、子供300円" ≠ "" then some (pyStrip "大人600円、子供300円")
      else if pyStrip "600円" ≠ "" then some (pyStrip "600円")
      else none :=
  ⟨by decide,
    price_detail_preferred 1 5
      { name := "二条城", lat := "35", lon := "135", description := "",
        startTime := "", endTime := "", timeNote := "",
        priceBasic := "600円", priceDetail := "大人600円、子供300円" }
      { id := "spot-1", name := "二条城", description := "二条城の観光スポット",
        congestionLevel := 5, latitude := 35, longitude := 135,
        openingHours := none, price := some "大人600円、子供300円" } (by decide)⟩

/-- C7: when every value of the `random.randint(1, 5)` stream lies in
`[1, 5]`, every emitted record has a congestion level in `[1, 5]`, and the
congestion levels are exactly the consecutive stream values: the k-th
emitted record carries the k-th draw, independently of the row contents. -/
theorem congestion_level_range_and_stream (rand : ℕ → ℕ) (rows : List Row)
    (hr : ∀ n, 1 ≤ rand n ∧ rand n ≤ 5) :
    (∀ s ∈ runScript rand rows, 1 ≤ s.congestionLevel ∧ s.congestionLevel ≤ 5) ∧
    (runScript rand rows).map Spot.congestionLevel =
      (List.range (runScript rand rows).length).map (fun k => rand k) := by
  constructor
  · intro s hs
    obtain ⟨n, hn⟩ := mem_parseRows_congestion rand rows 1 0 s hs
    rw [hn]
    exact hr n
  · have h := parseRows_map_congestion rand rows 1 0
    simpa using h

/-- C7 witness: with the constant stream 3 the single emitted record has
congestion level 3. -/
theorem congestion_level_range_and_stream_witness :
    (runScript (fun _ => 3)
        [{ name := "嵐山", lat := "35", lon := "135", description := "",
           startTime := "", endTime := "", timeNote := "", priceBasic := "",
           priceDetail := "" }]).map Spot.congestionLevel =
      (List.range (runScript (fun _ => 3)
        [{ name := "嵐山", lat := "35", lon := "135", description := "",
           startTime := "", endTime := "", timeNote := "", priceBasic := "",
           priceDetail := "" }]).length).map (fun _ => 3) :=
  (congestion_level_range_and_stream (fun _ => 3)
    [{ name := "嵐山", lat := "35", lon := "135", description := "",
       startTime := "", endTime := "", timeNote := "", priceBasic := "",
       priceDetail := "" }] (fun _ => by simp)).2

/-- C8: the identifiers of the generated collection are sequential and
gap-free: the k-th emitted record (0-indexed `k`) has id `spot-(k+1)`,
because the counter starts at 1 and is incremented exactly once per
emitted record. -/
theorem spot_ids_sequential (rand : ℕ → ℕ) (rows : List Row) :
    (runScript rand rows).map Spot.id =
      (List.range (runScript rand rows).length).map
        (fun k => "spot-" ++ toString (k + 1)) := by
  have h := parseRows_map_id rand rows 1 0
  rw [runScript, h]
  refine List.map_congr_left fun k _ => ?_
  rw [Nat.add_comm 1 k]

/-- C9: calling `findNearbySpots` without the radius argument behaves
exactly as calling it with a radius of 5 km. -/
theorem findNearbySpots_default_radius (spots : List Spot) (loc : Coordinates) :
    findNearbySpots spots loc none = findNearbySpots spots loc (some 5) :=
  rfl

/-- C10: a row whose latitude or longitude string is non-empty but not
parseable as a float is skipped: the `ValueError` is caught (modelled by
`pyFloat` returning `none`), no record is produced, the identifier counter
and the random stream are unchanged, and the loop continues with the
remaining rows as if the row had not occurred. -/
theorem unparseable_coordinate_row_skipped (rand : ℕ → ℕ) (row : Row)
    (rest : List Row) (spot_id draw : ℕ)
    (h : (pyStrip row.lat ≠ "" ∧ pyFloat (pyStrip row.lat) = none) ∨
      (pyStrip row.lon ≠ "" ∧ pyFloat (pyStrip row.lon) = none)) :
    parseRows rand (row :: rest) spot_id draw = parseRows rand rest spot_id draw :=
  parseRows_skip (buildSpot_none_of_parse_fail (h.imp And.right And.right))

/-- C10 witness: a concrete row with unparseable latitude `"北緯35度"` is
skipped and the following row is still processed (with the untouched
counter and stream). -/
theorem unparseable_coordinate_row_skipped_witness :
    parseRows (fun _ => 4)
      [{ name := "伏見稲荷大社", lat := "北緯35度", lon := "135", description := "",
         startTime := "", endTime := "", timeNote := "", priceBasic := "",
         priceDetail := "" },
       { name := "平等院", lat := "34.9", lon := "135.8", description := "",
         startTime := "", endTime := "", timeNote := "", priceBasic := "",
         priceDetail := "" }] 1 0 =
      parseRows (fun _ => 4)
        [{ name := "平等院", lat := "34.9", lon := "135.8", description := "",
           startTime := "", endTime := "", timeNote := "", priceBasic := "",
           priceDetail := "" }] 1 0 :=
  unparseable_coordinate_row_skipped (fun _ => 4)
    { name := "伏見稲荷大社", lat := "北緯35度", lon := "135", description := "",
      startTime := "", endTime := "", timeNote := "", priceBasic := "",
      priceDetail := "" }
    [{ name := "平等院", lat := "34.9", lon := "135.8", description := "",
       startTime := "", endTime := "", timeNote := "", priceBasic := "",
       priceDetail := "" }] 1 0 (by decide)

end SpotGen
